import Mathlib

/-!
Verification of the mindlogger-data-export post-processing core against its
specification.  The Python source (parsers.py, processors.py, mindlogger.py,
outputs.py) is shallowly embedded: the Lark grammars become priority-ordered
rule matchers over `List Char`, polars DataFrames become lists of typed rows,
and the polars explode/unnest/filter operations become the corresponding list
operations.  Machine floats (the geo latitude/longitude payload) are carried
as their source text: no modelled code computes with them.
-/

namespace MDE

/-! ## Character-level helpers (Lark terminals) -/

/-- Numeric value of a decimal digit character (Python `int` on one char). -/
def digitVal (c : Char) : Nat := c.toNat - 48

/-- Value of a digit string, as Python `int("".join(items))`. -/
def natOfDigits (l : List Char) : Nat := l.foldl (fun a c => 10 * a + digitVal c) 0

/-- WS_INLINE characters: `/[ \t]/`. -/
def isWsi (c : Char) : Bool := c == ' ' || c == '\t'

/-- Python regex `\w` (ASCII range, as used by these cells). -/
def isWordChar (c : Char) : Bool := c.isAlphanum || c == '_'

/-- Match a literal token, returning the rest of the input. -/
def litP : List Char → List Char → Option (List Char)
  | [], rest => some rest
  | _ :: _, [] => none
  | p :: ps, c :: cs => if c == p then litP ps cs else none

/-- `_WSI` = `WS_INLINE` = `/[ \t]+/`: one or more inline whitespace. -/
def wsiP : List Char → Option (List Char)
  | [] => none
  | c :: cs => if isWsi c then some (cs.dropWhile isWsi) else none

/-- `INT` = `/\d+/`: one or more digits, greedy. -/
def digitsP (l : List Char) : Option (List Char × List Char) :=
  match l.takeWhile Char.isDigit, l.dropWhile Char.isDigit with
  | [], _ => none
  | d :: ds, rest => some (d :: ds, rest)

/-- `padded_two_digit: DIGIT ~ 1..2` (two digits when two are available). -/
def p2dP : List Char → Option (Nat × List Char)
  | [] => none
  | [c] => if c.isDigit then some (digitVal c, []) else none
  | c :: c' :: rest =>
    if c.isDigit then
      if c'.isDigit then some (10 * digitVal c + digitVal c', rest)
      else some (digitVal c, c' :: rest)
    else none

/-! ## Response data model (ResponseTransformer.DEFAULT_SCHEMA) -/

/-- Python `datetime.date` value as built by `ResponseTransformer.date_resp`. -/
structure PyDate where
  year : Nat
  month : Nat
  day : Nat
  deriving Repr, DecidableEq

/-- Python `datetime.time` value (hour, minute). -/
structure PyTime where
  hour : Nat
  minute : Nat
  deriving Repr, DecidableEq

/-- Geo payload; float64 fields carried as their source text (see header). -/
structure GeoRec where
  latitude : String
  longitude : String
  deriving Repr, DecidableEq

/-- One matrix row: `{"row": key, "value": [ints]}`. -/
structure MatrixRow where
  row : String
  value : List Int
  deriving Repr, DecidableEq

/-- The tagged-variant record produced by `ResponseParser.parse`; all
non-selected fields stay `none` (DEFAULT_SCHEMA merge). `time_range` is the
timedelta in minutes. -/
structure ResponseRecord where
  type : Option String := none
  raw_value : Option String := none
  null_value : Option Bool := none
  value : Option (List Int) := none
  text : Option String := none
  file : Option String := none
  date : Option PyDate := none
  time : Option PyTime := none
  time_range : Option Int := none
  geo : Option GeoRec := none
  matrix : Option (List MatrixRow) := none
  deriving Repr, DecidableEq

instance exceptDecEq {ε α : Type} [DecidableEq ε] [DecidableEq α] :
    DecidableEq (Except ε α) := fun a b =>
  match a, b with
  | .ok x, .ok y => if h : x = y then isTrue (by rw [h]) else isFalse (by simp [h])
  | .error x, .error y =>
    if h : x = y then isTrue (by rw [h]) else isFalse (by simp [h])
  | .ok _, .error _ => isFalse (by simp)
  | .error _, .ok _ => isFalse (by simp)

/-- Result of one grammar rule after the transformer ran: `Except` models the
Python exceptions (`ValueError` from `datetime`) raised during transform. -/
abbrev TransRes := Except String ResponseRecord

/-! ## Date / time semantics of the transformer -/

/-- `ResponseTransformer.year`: two-digit pivot applied by integer value. -/
def yearT (iyr : Nat) : Nat :=
  iyr + (if iyr < 69 then 2000 else if iyr ≤ 99 then 1900 else 0)

/-- Gregorian month lengths, as validated by Python `datetime.date`. -/
def daysInMonth (y m : Nat) : Nat :=
  if m == 2 then
    (if y % 4 == 0 && (y % 100 != 0 || y % 400 == 0) then 29 else 28)
  else if m == 4 || m == 6 || m == 9 || m == 11 then 30
  else 31

/-- Validity check performed by Python `datetime.date(year, month, day)`. -/
def validDate (y m d : Nat) : Bool :=
  1 ≤ y && y ≤ 9999 && 1 ≤ m && m ≤ 12 && 1 ≤ d && d ≤ daysInMonth y m

/-- `ResponseTransformer.date_resp(day, month, year)`: builds
`date(year, month, day)` — note the first parsed field is bound to `day`. -/
def dateT (day month year : Nat) : TransRes :=
  if validDate year month day then
    .ok { type := some "date", date := some ⟨year, month, day⟩ }
  else .error "ValueError: invalid date"

/-- Validity check performed by Python `datetime.time(hour, minute)`. -/
def validTime (h m : Nat) : Bool := h ≤ 23 && m ≤ 59

/-- `year: (DIGIT ~ 2) | (DIGIT ~ 4)` at end of input, transformed by
`ResponseTransformer.year`. -/
def yearEndP (l : List Char) : Option Nat :=
  if l.all Char.isDigit && (l.length == 2 || l.length == 4) then
    some (yearT (natOfDigits l))
  else none

/-! ## Response grammar rule matchers (priority order of RESPONSE_GRAMMAR).
Each matcher takes the whole cell; `none` = rule does not match,
`some r` = rule matched and `r` is the transformed result. -/

/-- `null_resp.20: "value: null"`. -/
def nullRespM (l : List Char) : Option TransRes :=
  match litP "value: null".data l with
  | some [] => some (.ok { type := some "null_value", null_value := some true })
  | _ => none

/-- `value_resp.15: "value:" _WSI INT`. -/
def valueRespM (l : List Char) : Option TransRes :=
  match litP "value:".data l with
  | none => none
  | some r =>
    match wsiP r with
    | none => none
    | some r2 =>
      match digitsP r2 with
      | some (ds, []) =>
        some (.ok { type := some "value", value := some [(natOfDigits ds : Int)] })
      | _ => none

/-- `text_resp.10: "text:" _WSI /.+/s` (multi-line body captured). -/
def textRespM (l : List Char) : Option TransRes :=
  match litP "text:".data l with
  | none => none
  | some r =>
    match wsiP r with
    | some (c :: cs) =>
      some (.ok { type := some "text", text := some (String.mk (c :: cs)) })
    | _ => none

/-- `date_resp.10: "date:" _WSI padded_two_digit "/" padded_two_digit "/" year`. -/
def dateRespM (l : List Char) : Option TransRes :=
  match litP "date:".data l with
  | none => none
  | some r =>
    match wsiP r with
    | none => none
    | some r2 =>
      match p2dP r2 with
      | none => none
      | some (d1, r3) =>
        match litP "/".data r3 with
        | none => none
        | some r4 =>
          match p2dP r4 with
          | none => none
          | some (d2, r5) =>
            match litP "/".data r5 with
            | none => none
            | some r6 =>
              match yearEndP r6 with
              | none => none
              | some y => some (dateT d1 d2 y)

/-- `time: _hour _WSI _minute` with `_hour: "hr" _WSI padded_two_digit`,
`_minute: "min" _WSI padded_two_digit`. Returns the raw (hour, minute). -/
def timeP (l : List Char) : Option ((Nat × Nat) × List Char) :=
  match litP "hr".data l with
  | none => none
  | some r =>
    match wsiP r with
    | none => none
    | some r2 =>
      match p2dP r2 with
      | none => none
      | some (h, r3) =>
        match wsiP r3 with
        | none => none
        | some r4 =>
          match litP "min".data r4 with
          | none => none
          | some r5 =>
            match wsiP r5 with
            | none => none
            | some r6 =>
              match p2dP r6 with
              | none => none
              | some (m, r7) => some ((h, m), r7)

/-- `ResponseTransformer.time`: Python `time(hour, minute)` with validation. -/
def timeT (h m : Nat) : Except String PyTime :=
  if validTime h m then .ok ⟨h, m⟩ else .error "ValueError: invalid time"

/-- `time_resp.10: "time:" _WSI time`. -/
def timeRespM (l : List Char) : Option TransRes :=
  match litP "time:".data l with
  | none => none
  | some r =>
    match wsiP r with
    | none => none
    | some r2 =>
      match timeP r2 with
      | some (hm, []) =>
        some ((timeT hm.1 hm.2).map fun t => { type := some "time", time := some t })
      | _ => none

/-- `time_range_resp.10: "time_range:" _WSI "from" _WSI time _WSI "/" _WSI "to"
_WSI time`; transformer builds `timedelta(hours=to.h-from.h,
minutes=to.m-from.m)`, stored as total minutes (may be negative). -/
def timeRangeRespM (l : List Char) : Option TransRes :=
  match litP "time_range:".data l with
  | none => none
  | some r =>
    match wsiP r with
    | none => none
    | some r2 =>
      match litP "from".data r2 with
      | none => none
      | some r3 =>
        match wsiP r3 with
        | none => none
        | some r4 =>
          match timeP r4 with
          | none => none
          | some (fromHM, r5) =>
            match wsiP r5 with
            | none => none
            | some r6 =>
              match litP "/".data r6 with
              | none => none
              | some r7 =>
                match wsiP r7 with
                | none => none
                | some r8 =>
                  match litP "to".data r8 with
                  | none => none
                  | some r9 =>
                    match wsiP r9 with
                    | none => none
                    | some r10 =>
                      match timeP r10 with
                      | some (toHM, []) =>
                        some (do
                          let ft ← timeT fromHM.1 fromHM.2
                          let tt ← timeT toHM.1 toHM.2
                          let mins : Int :=
                            ((tt.hour : Int) - (ft.hour : Int)) * 60 +
                              ((tt.minute : Int) - (ft.minute : Int))
                          .ok { type := some "time_range", time_range := some mins })
                      | _ => none

/-- `SIGNED_FLOAT` from lark common: optional sign then `INT _EXP` or
`DECIMAL _EXP?` (`DECIMAL: INT "." INT? | "." INT`). Captures the lexeme. -/
def optSignP (l : List Char) : List Char × List Char :=
  match l with
  | c :: cs => if c == '+' || c == '-' then ([c], cs) else ([], c :: cs)
  | [] => ([], [])

/-- Greedy digit run, possibly empty, with the rest. -/
def optDigitsP (l : List Char) : List Char × List Char :=
  (l.takeWhile Char.isDigit, l.dropWhile Char.isDigit)

/-- `_EXP: ("e"|"E") SIGNED_INT`. -/
def expPartP (l : List Char) : Option (List Char × List Char) :=
  match l with
  | c :: cs =>
    if c == 'e' || c == 'E' then
      match optSignP cs with
      | (sg, r) =>
        match optDigitsP r with
        | ([], _) => none
        | (d :: ds, r2) => some (c :: (sg ++ d :: ds), r2)
    else none
  | [] => none

/-- `DECIMAL: INT "." INT? | "." INT`. -/
def decimalP (l : List Char) : Option (List Char × List Char) :=
  match optDigitsP l with
  | (ds, r) =>
    match r with
    | '.' :: r2 =>
      match optDigitsP r2 with
      | (ds2, r3) =>
        if ds.isEmpty && ds2.isEmpty then none
        else some (ds ++ '.' :: ds2, r3)
    | _ => none

/-- Full `SIGNED_FLOAT` lexer. -/
def sfloatP (l : List Char) : Option (String × List Char) :=
  match optSignP l with
  | (sg, r) =>
    match decimalP r with
    | some (d, r2) =>
      match expPartP r2 with
      | some (e, r3) => some (String.mk (sg ++ d ++ e), r3)
      | none => some (String.mk (sg ++ d), r2)
    | none =>
      match optDigitsP r with
      | ([], _) => none
      | (d :: ds, r2) =>
        match expPartP r2 with
        | some (e, r3) => some (String.mk (sg ++ (d :: ds) ++ e), r3)
        | none => none

/-- `geo_resp.10: "geo:" _WSI "lat" _WSI SIGNED_FLOAT _WSI "long" _WSI
SIGNED_FLOAT`. -/
def geoRespM (l : List Char) : Option TransRes :=
  match litP "geo:".data l with
  | none => none
  | some r =>
    match wsiP r with
    | none => none
    | some r2 =>
      match litP "lat".data r2 with
      | none => none
      | some r3 =>
        match wsiP r3 with
        | none => none
        | some r4 =>
          match sfloatP r4 with
          | none => none
          | some (lat, r5) =>
            match wsiP r5 with
            | none => none
            | some r6 =>
              match litP "long".data r6 with
              | none => none
              | some r7 =>
                match wsiP r7 with
                | none => none
                | some r8 =>
                  match sfloatP r8 with
                  | some (lng, []) =>
                    some (.ok { type := some "geo", geo := some ⟨lat, lng⟩ })
                  | _ => none

/-- `_CSV INT` step of `ilist: _sep{INT, _CSV}` where `_CSV: "," _WSI`. -/
def ilistStepP (l : List Char) : Option (Int × List Char) :=
  match l with
  | ',' :: r =>
    match wsiP r with
    | none => none
    | some r2 =>
      match digitsP r2 with
      | none => none
      | some (ds, r3) => some ((natOfDigits ds : Int), r3)
  | _ => none

/-- Iterate `ilistStepP`; fuel bounds the recursion by input length. -/
def ilistLoop : Nat → List Int → List Char → List Int × List Char
  | 0, acc, l => (acc, l)
  | fuel + 1, acc, l =>
    match ilistStepP l with
    | none => (acc, l)
    | some (v, r) => ilistLoop fuel (acc ++ [v]) r

/-- `ilist: _sep{INT, _CSV}`: one or more comma-separated ints. -/
def ilistP (l : List Char) : Option (List Int × List Char) :=
  match digitsP l with
  | none => none
  | some (ds, r) =>
    match ilistLoop r.length [(natOfDigits ds : Int)] r with
    | (vs, r2) => some (vs, r2)

/-- `multivalue_resp.10: "value:" _WSI ilist`. -/
def multivalueRespM (l : List Char) : Option TransRes :=
  match litP "value:".data l with
  | none => none
  | some r =>
    match wsiP r with
    | none => none
    | some r2 =>
      match ilistP r2 with
      | some (vs, []) => some (.ok { type := some "value", value := some vs })
      | _ => none

/-- `row_kvv: _value ":" _WSI? ilist` with `_value: /\w+/`. -/
def rowKvvP (l : List Char) : Option (MatrixRow × List Char) :=
  match l.takeWhile isWordChar, l.dropWhile isWordChar with
  | [], _ => none
  | k :: ks, rest =>
    match litP ":".data rest with
    | none => none
    | some r =>
      let r2 := match wsiP r with | some w => w | none => r
      match ilistP r2 with
      | none => none
      | some (vs, r3) => some (⟨String.mk (k :: ks), vs⟩, r3)

/-- `NEWLINE: (CR? LF)+` (lark common), optional after each row. -/
def nlP (l : List Char) : List Char :=
  match l with
  | '\r' :: '\n' :: r => nlP r
  | '\n' :: r => nlP r
  | _ => l

/-- Iterate rows for `row_multi_resp.5: (row_kvv _NL?)+`. -/
def rowLoop : Nat → List MatrixRow → List Char → List MatrixRow × List Char
  | 0, acc, l => (acc, l)
  | fuel + 1, acc, l =>
    match rowKvvP l with
    | none => (acc, l)
    | some (row, r) => rowLoop fuel (acc ++ [row]) (nlP r)

/-- `row_multi_resp.5`: one or more `key: v[, v...]` lines. -/
def rowMultiRespM (l : List Char) : Option TransRes :=
  match rowKvvP l with
  | none => none
  | some (row, r) =>
    match rowLoop r.length [row] (nlP r) with
    | (rows, []) => some (.ok { type := some "matrix", matrix := some rows })
    | _ => none

/-- `/.+/` parts of the file rule: nonempty and no newline (no DOTALL). -/
def dotPlus (l : List Char) : Bool := !l.isEmpty && l.all (fun c => !(c == '\n'))

/-- All ways to split a list in two. -/
def splitsAt (l : List Char) : List (List Char × List Char) :=
  (List.range (l.length + 1)).map fun i => (l.take i, l.drop i)

/-- `file_resp.5: /\.?\/?.+\/.+\.\w{2,4}/` as a whole-string match.  The
optional `\.?\/?` prefix is subsumed: `.` also matches those characters, so
the regex accepts exactly the decompositions below. -/
def fileMatch (l : List Char) : Bool :=
  (splitsAt l).any fun pr =>
    match pr.2 with
    | '/' :: tail =>
      (splitsAt tail).any fun pr2 =>
        match pr2.2 with
        | '.' :: ext =>
          dotPlus pr.1 && dotPlus pr2.1 && ext.all isWordChar &&
            (decide (2 ≤ ext.length) && decide (ext.length ≤ 4))
        | _ => false
    | _ => false

/-- `file_resp.5` matcher. -/
def fileRespM (l : List Char) : Option TransRes :=
  if fileMatch l then
    some (.ok { type := some "file", file := some (String.mk l) })
  else none

/-- `raw_value_resp.0: /.+/s`: catch-all for any nonempty cell. -/
def rawValueRespM (l : List Char) : Option TransRes :=
  match l with
  | [] => none
  | c :: cs =>
    some (.ok { type := some "raw_value", raw_value := some (String.mk (c :: cs)) })

/-- The RESPONSE_GRAMMAR alternatives, highest rule priority first
(`null 20 > value 15 > text/multivalue/date/time/time_range/geo 10 >
row_multi/file 5 > raw_value 0`; ties by declaration order). -/
def responseMatchers : List (List Char → Option TransRes) :=
  [nullRespM, valueRespM, textRespM, multivalueRespM, dateRespM, timeRespM,
    timeRangeRespM, geoRespM, rowMultiRespM, fileRespM, rawValueRespM]

/-- Try matchers in priority order, returning the first match. -/
def firstSome : List (List Char → Option TransRes) → List Char → Option TransRes
  | [], _ => none
  | m :: ms, l =>
    match m l with
    | some r => some r
    | none => firstSome ms l

/-- `ResponseParser.parse`: no rule matching is a Lark `UnexpectedInput`. -/
def responseParse (l : List Char) : TransRes :=
  match firstSome responseMatchers l with
  | some r => r
  | none => .error "UnexpectedInput"

/-! ## Options grammar (OptionsParser / OptionsTransformer) -/

/-- Option name as produced by OptionsTransformer: list entries carry the
matched `/\w+/` text, synthesized range entries carry the int itself. -/
inductive OptName where
  | str (s : String)
  | int (n : Int)
  deriving Repr, DecidableEq

/-- One parsed option dict `{"name": _, "value": _, "score": _}`. -/
structure ParsedOption where
  name : OptName
  value : Int
  score : Option Int
  deriving Repr, DecidableEq

/-- Python `range(a, b)` over naturals. -/
def pyRange (a b : Nat) : List Nat := (List.range (b - a)).map (a + ·)

/-- `OptionsTransformer.min_max_range`: ascending `[min, max]` inclusive with
`name = value = score = n`; empty when `min > max`. -/
def minMaxRangeT (minimum maximum : Nat) : List ParsedOption :=
  (pyRange minimum (maximum + 1)).map fun n =>
    ⟨.int (Int.ofNat n), Int.ofNat n, some (Int.ofNat n)⟩

/-- `max_min_range.20: "Max:" _WSI INT "," _WSI "Min:" _WSI INT`;
transformer swaps the arguments into `min_max_range`. -/
def maxMinRangeM (l : List Char) : Option (List ParsedOption) :=
  match litP "Max:".data l with
  | none => none
  | some r =>
    match wsiP r with
    | none => none
    | some r2 =>
      match digitsP r2 with
      | none => none
      | some (dsMax, r3) =>
        match litP ",".data r3 with
        | none => none
        | some r4 =>
          match wsiP r4 with
          | none => none
          | some r5 =>
            match litP "Min:".data r5 with
            | none => none
            | some r6 =>
              match wsiP r6 with
              | none => none
              | some r7 =>
                match digitsP r7 with
                | some (dsMin, []) =>
                  some (minMaxRangeT (natOfDigits dsMin) (natOfDigits dsMax))
                | _ => none

/-- `min_max_range.20: "Min:" _WSI INT "," _WSI "Max:" _WSI INT`. -/
def minMaxRangeM (l : List Char) : Option (List ParsedOption) :=
  match litP "Min:".data l with
  | none => none
  | some r =>
    match wsiP r with
    | none => none
    | some r2 =>
      match digitsP r2 with
      | none => none
      | some (dsMin, r3) =>
        match litP ",".data r3 with
        | none => none
        | some r4 =>
          match wsiP r4 with
          | none => none
          | some r5 =>
            match litP "Max:".data r5 with
            | none => none
            | some r6 =>
              match wsiP r6 with
              | none => none
              | some r7 =>
                match digitsP r7 with
                | some (dsMax, []) =>
                  some (minMaxRangeT (natOfDigits dsMin) (natOfDigits dsMax))
                | _ => none

/-- `option: name ":" _WSI? INT` with `name: /\w+/`; score stays null. -/
def optionP (l : List Char) : Option (ParsedOption × List Char) :=
  match l.takeWhile isWordChar, l.dropWhile isWordChar with
  | [], _ => none
  | k :: ks, rest =>
    match litP ":".data rest with
    | none => none
    | some r =>
      let r2 := match wsiP r with | some w => w | none => r
      match digitsP r2 with
      | none => none
      | some (ds, r3) =>
        some (⟨.str (String.mk (k :: ks)), (natOfDigits ds : Int), none⟩, r3)

/-- `SIGNED_INT` (lark common): optional sign then digits. -/
def signedIntP (l : List Char) : Option (Int × List Char) :=
  match l with
  | '-' :: r =>
    match digitsP r with
    | none => none
    | some (ds, r2) => some (-(natOfDigits ds : Int), r2)
  | '+' :: r =>
    match digitsP r with
    | none => none
    | some (ds, r2) => some ((natOfDigits ds : Int), r2)
  | _ =>
    match digitsP l with
    | none => none
    | some (ds, r2) => some ((natOfDigits ds : Int), r2)

/-- `score: "(" "score:" _WSI? SIGNED_INT _WSI? ")"`. -/
def scoreP (l : List Char) : Option (Int × List Char) :=
  match litP "(score:".data l with
  | none => none
  | some r =>
    let r2 := match wsiP r with | some w => w | none => r
    match signedIntP r2 with
    | none => none
    | some (s, r3) =>
      let r4 := match wsiP r3 with | some w => w | none => r3
      match litP ")".data r4 with
      | none => none
      | some r5 => some (s, r5)

/-- `scored_option: option _WSI score`; transformer fills the score in. -/
def scoredOptionP (l : List Char) : Option (ParsedOption × List Char) :=
  match optionP l with
  | none => none
  | some (o, r) =>
    match wsiP r with
    | none => none
    | some r2 =>
      match scoreP r2 with
      | none => none
      | some (s, r3) => some ({ o with score := some s }, r3)

/-- One `_CSV x` step for an option-list separator (`_CSV: "," _WSI`). -/
def optSepStep (p : List Char → Option (ParsedOption × List Char))
    (l : List Char) : Option (ParsedOption × List Char) :=
  match l with
  | ',' :: r =>
    match wsiP r with
    | none => none
    | some r2 => p r2
  | _ => none

/-- Iterate a separated-list step; fuel bounds recursion by input length. -/
def optLoop (p : List Char → Option (ParsedOption × List Char)) :
    Nat → List ParsedOption → List Char → List ParsedOption × List Char
  | 0, acc, l => (acc, l)
  | fuel + 1, acc, l =>
    match optSepStep p l with
    | none => (acc, l)
    | some (o, r) => optLoop p fuel (acc ++ [o]) r

/-- `_sep{x, _CSV}` for an option element parser, whole input consumed. -/
def optListM (p : List Char → Option (ParsedOption × List Char))
    (l : List Char) : Option (List ParsedOption) :=
  match p l with
  | none => none
  | some (o, r) =>
    match optLoop p r.length [o] r with
    | (os, []) => some os
    | _ => none

/-- `scored_options.10: _sep{scored_option, _CSV}`. -/
def scoredOptionsM (l : List Char) : Option (List ParsedOption) :=
  optListM scoredOptionP l

/-- `value_options.10: _sep{option, _CSV}`. -/
def valueOptionsM (l : List Char) : Option (List ParsedOption) :=
  optListM optionP l

/-- OPTIONS_GRAMMAR alternatives by rule priority: `_range.20` before the
two priority-10 list forms (declaration order between those). -/
def optionsMatchers : List (List Char → Option (List ParsedOption)) :=
  [maxMinRangeM, minMaxRangeM, scoredOptionsM, valueOptionsM]

/-- First matching alternative for the options grammar. -/
def optFirstSome :
    List (List Char → Option (List ParsedOption)) → List Char →
      Option (List ParsedOption)
  | [], _ => none
  | m :: ms, l =>
    match m l with
    | some r => some r
    | none => optFirstSome ms l

/-- `OptionsParser.parse`. -/
def optionsParse (l : List Char) : Except String (List ParsedOption) :=
  match optFirstSome optionsMatchers l with
  | some r => .ok r
  | none => .error "UnexpectedInput"

/-! ## Table data model (polars DataFrames as lists of typed rows) -/

/-- Inner struct of ITEM_SCHEMA's `response_options` (polars list of structs). -/
structure OptionRec where
  name : Option String
  value : Option Int
  score : Option Int
  deriving Repr, DecidableEq

/-- `ItemStructProcessor.ITEM_SCHEMA`. -/
structure ItemStruct where
  id : Option String
  name : Option String
  prompt : Option String
  type : Option String
  raw_options : Option String
  response_options : Option (List OptionRec)
  deriving Repr, DecidableEq

/-- `ResponseStructProcessor.RESPONSE_SCHEMA`: the declared fields of the
`response` struct column (status, value = the parsed record, raw_score). -/
structure RespColumn where
  status : Option String
  raw_score : Option String
  value : ResponseRecord
  deriving Repr, DecidableEq

/-- One processed report row; `α` stands for all remaining columns. -/
structure ReportRow (α : Type) where
  other : α
  item : ItemStruct
  response : RespColumn
  deriving Repr, DecidableEq

/-- polars `explode` on a list column: null and empty lists yield one null
element; otherwise one row per element. -/
def explodeOpt {τ : Type} : Option (List τ) → List (Option τ)
  | none => [none]
  | some [] => [none]
  | some (x :: xs) => (x :: xs).map some

/-- Simultaneous polars `explode` of a list column and its
`int_ranges(list.len())` index column (`list.len()` of null is null). -/
def explodePair : Option (List Int) → List (Option Int × Option Int)
  | none => [(none, none)]
  | some [] => [(none, none)]
  | some (x :: xs) => ((x :: xs).enum).map fun p => (some p.2, some (p.1 : Int))

/-- Output row of `MindloggerData.expand_responses` (all response fields
unnested; column names follow the `response_` / `response_value_` prefixes). -/
structure LongRow (α : Type) where
  other : α
  item : ItemStruct
  response_status : Option String
  response_raw_score : Option String
  response_value_type : Option String
  response_value_raw_value : Option String
  response_value_null_value : Option Bool
  response_value_text : Option String
  response_value_file : Option String
  response_value_date : Option PyDate
  response_value_time : Option PyTime
  response_value_time_range : Option Int
  response_value_value : Option Int
  response_value_value_index : Option Int
  response_value_geo_latitude : Option String
  response_value_geo_longitude : Option String
  response_value_matrix_row : Option String
  response_value_matrix_value : Option Int
  response_value_matrix_value_index : Option Int
  deriving Repr, DecidableEq

/-- Per-row expansion underlying `MindloggerData.expand_responses`: unnest the
response struct, explode `value` with its index column, unnest `geo`, explode
`matrix`, unnest each matrix row, explode its value list with its index, drop
the consumed nested columns.  The staged whole-table polars operations act
row-wise, so they compose into this per-row nest. -/
def expandRespRow {α : Type} (r : ReportRow α) : List (LongRow α) :=
  (explodePair r.response.value.value).flatMap fun vv =>
    (explodeOpt r.response.value.matrix).flatMap fun m =>
      (explodePair (m.map MatrixRow.value)).map fun mv =>
        { other := r.other
          item := r.item
          response_status := r.response.status
          response_raw_score := r.response.raw_score
          response_value_type := r.response.value.type
          response_value_raw_value := r.response.value.raw_value
          response_value_null_value := r.response.value.null_value
          response_value_text := r.response.value.text
          response_value_file := r.response.value.file
          response_value_date := r.response.value.date
          response_value_time := r.response.value.time
          response_value_time_range := r.response.value.time_range
          response_value_value := vv.1
          response_value_value_index := vv.2
          response_value_geo_latitude := r.response.value.geo.map GeoRec.latitude
          response_value_geo_longitude := r.response.value.geo.map GeoRec.longitude
          response_value_matrix_row := m.map MatrixRow.row
          response_value_matrix_value := mv.1
          response_value_matrix_value_index := mv.2 }

/-- `MindloggerData.expand_responses`. -/
def expandResponses {α : Type} (df : List (ReportRow α)) : List (LongRow α) :=
  df.flatMap expandRespRow

/-- `MindloggerData.expand_options`: add `item_response_options` =
`col("item").struct.field("response_options")`, then explode it.  `getItem`
is the row's `item` column accessor; the record stays nested and no
deduplication happens here. -/
def expandOptions {ρ : Type} (getItem : ρ → ItemStruct) (df : List ρ) :
    List (ρ × Option OptionRec) :=
  df.flatMap fun r => (explodeOpt (getItem r).response_options).map fun o => (r, o)

/-- `MindloggerData.long_report` = `expand_options(expand_responses(report))`. -/
def longReport {α : Type} (df : List (ReportRow α)) :
    List (LongRow α × Option OptionRec) :=
  expandOptions (fun r => r.item) (expandResponses df)

/-- The column references of the scored filter expression
(`pl.col("item_option_value")` and `pl.col("item_response_value")`,
outputs.py:322-324; the left operand of `eq_missing` is resolved first). -/
def scoredFilterCols : List String := ["item_option_value", "item_response_value"]

/-- Columns the expansion pipeline itself adds to the long report: the
`item` struct, the unnested response columns of `expand_responses` (prefixes
`response_` / `response_value_`), and the exploded `item_response_options`
column of `expand_options`. -/
def longReportPipelineCols : List String :=
  ["item", "response_status", "response_raw_score", "response_value_type",
    "response_value_raw_value", "response_value_null_value",
    "response_value_text", "response_value_file", "response_value_date",
    "response_value_time", "response_value_time_range", "response_value_value",
    "response_value_value_index", "response_value_geo_latitude",
    "response_value_geo_longitude", "response_value_matrix_row",
    "response_value_matrix_value", "response_value_matrix_value_index",
    "item_response_options"]

/-- Schema of `long_report`: the remaining report columns (`other`, the
counterpart of the row model's `α`) plus the pipeline columns. -/
def longReportCols (other : List String) : List String :=
  other ++ longReportPipelineCols

/-- `ScoredResponsesFormat._format`: filter `data.long_report` by
`col("item_option_value").cast(pl.String).eq_missing(col("item_response_value"))`.
Eager polars resolves the expression's column references against the frame's
schema and raises `ColumnNotFoundError` on a missing one.  The `none` branch
is where the filter would apply, but it is unreachable — the long report
never carries the referenced columns (see the C8 theorem) — so the source
filter expression is never evaluable and the branch returns the frame
unchanged. -/
def scoredFormat {α : Type} (other : List String) (df : List (ReportRow α)) :
    Except String (List (LongRow α × Option OptionRec)) :=
  match scoredFilterCols.find? (fun c => !(longReportCols other).contains c) with
  | some c => .error ("ColumnNotFoundError: " ++ c)
  | none => .ok (longReport df)

/-- Identity columns of the processed report outside the item/response
structs (the columns the struct-assembly processors leave in place). -/
def reportOtherCols : List String :=
  ["applet_version", "utc_timezone_offset", "activity_flow", "activity",
    "activity_schedule", "target_user", "source_user", "input_user",
    "account_user"]

/-! ## Processor chain, schema level (processors.py) -/

/-- Schema-level view of a polars DataFrame: column names and row count. -/
structure PDF where
  cols : List String
  height : Nat
  deriving Repr, DecidableEq

/-- polars `with_columns` at schema level: existing output names are replaced
in place, new names appended; the row count never changes. -/
def withCols (t : PDF) (new : List String) : PDF :=
  ⟨t.cols ++ new.filter (fun c => !t.cols.contains c), t.height⟩

/-- polars `drop` by exact names. -/
def dropCols (t : PDF) (del : List String) : PDF :=
  ⟨t.cols.filter (fun c => !del.contains c), t.height⟩

/-- polars `drop` by predicate (regex selectors). -/
def dropWhere (t : PDF) (p : String → Bool) : PDF :=
  ⟨t.cols.filter (fun c => !p c), t.height⟩

/-- `DropLegacyUserIdProcessor._run`. -/
def dropLegacyRun (t : PDF) : PDF :=
  if t.cols.contains "legacy_user_id" then dropCols t ["legacy_user_id"] else t

/-- `ColumnCastingProcessor._run` (casts `rawScore` in place). -/
def columnCastingRun (t : PDF) : PDF := withCols t ["rawScore"]

/-- `DateTimeProcessor._run`: rewrites every `*_time` column in place and
(re)writes `utc_timezone_offset`. -/
def dateTimeRun (t : PDF) : PDF :=
  withCols t (t.cols.filter (fun c => c.endsWith "_time") ++ ["utc_timezone_offset"])

/-- Columns consumed (dropped) by `ResponseStructProcessor._run`. -/
def responseStructDrops : List String :=
  ["item_response_status", "item_response", "rawScore"]

/-- `ResponseStructProcessor._run`. -/
def responseStructRun (t : PDF) : PDF :=
  dropCols (withCols t ["response"]) responseStructDrops

/-- Regex `^<pre>[^u].*$`: starts with `pre`, next char present and not `u`. -/
def userFlatCol (pre : String) (c : String) : Bool :=
  pre.data.isPrefixOf c.data &&
    (match c.data.drop pre.data.length with
     | d :: _ => !(d == 'u')
     | [] => false)

/-- Columns consumed by `UserStructProcessor._run` (the three regex drops
plus `userId` and `secret_user_id`). -/
def userStructDrop (c : String) : Bool :=
  userFlatCol "target_" c || userFlatCol "source_" c || userFlatCol "input_" c ||
    c == "userId" || c == "secret_user_id"

/-- `UserStructProcessor._run`. -/
def userStructRun (t : PDF) : PDF :=
  dropWhere (withCols t ["target_user", "source_user", "input_user", "account_user"])
    userStructDrop

/-- Columns consumed by `ItemStructProcessor._run`. -/
def itemStructDrops : List String :=
  ["item_id", "item_name", "item_prompt", "item_type", "item_response_options"]

/-- `ItemStructProcessor._run`. -/
def itemStructRun (t : PDF) : PDF :=
  dropCols (withCols t ["item"]) itemStructDrops

/-- Columns consumed by `ActivityFlowStructProcessor._run`. -/
def activityFlowStructDrops : List String :=
  ["activity_flow_id", "activity_flow_name", "activity_flow_submission_id"]

/-- `ActivityFlowStructProcessor._run`. -/
def activityFlowStructRun (t : PDF) : PDF :=
  dropCols (withCols t ["activity_flow"]) activityFlowStructDrops

/-- Columns consumed by `ActivityStructProcessor._run`. -/
def activityStructDrops : List String :=
  ["activity_id", "activity_name", "activity_submission_id",
    "activity_submission_review_id", "activity_start_time", "activity_end_time"]

/-- `ActivityStructProcessor._run`. -/
def activityStructRun (t : PDF) : PDF :=
  dropCols (withCols t ["activity"]) activityStructDrops

/-- Columns consumed by `ActivityScheduleStructProcessor._run`. -/
def activityScheduleStructDrops : List String :=
  ["activity_schedule_id", "activity_schedule_history_id",
    "activity_schedule_start_time"]

/-- `ActivityScheduleStructProcessor._run`. -/
def activityScheduleStructRun (t : PDF) : PDF :=
  dropCols (withCols t ["activity_schedule"]) activityScheduleStructDrops

/-- The standard (non-subscale) processors, each paired with the predicate
describing exactly the pre-existing columns it consumes. -/
def standardProcessors : List ((PDF → PDF) × (String → Bool)) :=
  [(dropLegacyRun, fun c => c == "legacy_user_id"),
    (columnCastingRun, fun _ => false),
    (dateTimeRun, fun _ => false),
    (responseStructRun, fun c => responseStructDrops.contains c),
    (userStructRun, userStructDrop),
    (itemStructRun, fun c => itemStructDrops.contains c),
    (activityFlowStructRun, fun c => activityFlowStructDrops.contains c),
    (activityStructRun, fun c => activityStructDrops.contains c),
    (activityScheduleStructRun, fun c => activityScheduleStructDrops.contains c)]

/-! ## Processor registry and the default pipeline loop (mindlogger.py) -/

/-- A registered processor class as the registry sees it: name, declared
PRIORITY, and the looked-up `ENABLE` class attribute (`none` = the attribute
is not defined anywhere, so access raises `AttributeError`). -/
structure ProcClass where
  NAME : String
  PRIORITY : Int
  ENABLE : Option Bool
  deriving Repr, DecidableEq

/-- `ReportProcessor.__init_subclass__`: registers iff `PRIORITY >= 0`. -/
def initSubclass (ps : List ProcClass) (c : ProcClass) : List ProcClass :=
  if 0 ≤ c.PRIORITY then ps ++ [c] else ps

/-- The processors.py subclasses in declaration order with their declared
priorities; none of them (nor the base protocol) defines `ENABLE`. -/
def declaredProcessors : List ProcClass :=
  [⟨"DropLegacyUserId", 0, none⟩, ⟨"ColumnCasting", 0, none⟩,
    ⟨"DateTime", 8, none⟩, ⟨"ResponseStruct", 10, none⟩,
    ⟨"UserStruct", 10, none⟩, ⟨"ItemStruct", 10, none⟩,
    ⟨"ActivityFlowStruct", 10, none⟩, ⟨"ActivityStruct", 10, none⟩,
    ⟨"ActivityScheduleStruct", 10, none⟩, ⟨"Subscale", 5, none⟩]

/-- `ReportProcessor.PROCESSORS` after importing processors.py. -/
def registeredProcessors : List ProcClass := declaredProcessors.foldl initSubclass []

/-- The processor loop of `MindloggerData.load_web_export`: for each
processor in priority order, read `proc.ENABLE` (an `AttributeError` if the
attribute does not exist), skip if falsy, else thread the table through. -/
def runChain {τ : Type} (apply : ProcClass → τ → τ) :
    List ProcClass → τ → Except String τ
  | [], t => .ok t
  | p :: ps, t =>
    match p.ENABLE with
    | none => .error ("AttributeError: type object " ++ p.NAME ++
        " has no attribute ENABLE")
    | some false => runChain apply ps t
    | some true => runChain apply ps (apply p t)

/-- Stable insertion into a priority-sorted list: a new element goes after
every element of smaller-or-equal priority, as Python's stable `sorted`. -/
def insertByPriority (a : ProcClass) : List ProcClass → List ProcClass
  | [] => [a]
  | b :: bs =>
    if b.PRIORITY ≤ a.PRIORITY then b :: insertByPriority a bs else a :: b :: bs

/-- `sorted(ReportProcessor.PROCESSORS, key=lambda x: x.PRIORITY)`. -/
def sortByPriority (l : List ProcClass) : List ProcClass :=
  l.foldl (fun acc p => insertByPriority p acc) []

/-- `load_web_export` after file concatenation: stable sort by PRIORITY,
then run the loop. -/
def loadWebExport {τ : Type} (apply : ProcClass → τ → τ) (t : τ) : Except String τ :=
  runChain apply (sortByPriority registeredProcessors) t

/-! ## Evaluation lemmas for the date rule -/

theorem digit_not_wsi {c : Char} (h : c.isDigit = true) : isWsi c = false := by
  unfold isWsi
  have h1 : c ≠ ' ' := by rintro rfl; exact absurd h (by decide)
  have h2 : c ≠ '\t' := by rintro rfl; exact absurd h (by decide)
  simp [h1, h2]

theorem digitVal_lt_ten {c : Char} (h : c.isDigit = true) : digitVal c < 10 := by
  simp only [Char.isDigit, Bool.and_eq_true, decide_eq_true_eq] at h
  obtain ⟨h1, h2⟩ := h
  have g2 : c.val.toNat ≤ (57 : UInt32).toNat := BitVec.le_def.mp (UInt32.le_def.mp h2)
  have e2 : (57 : UInt32).toNat = 57 := rfl
  simp [digitVal, Char.toNat]
  omega

theorem natOfDigits_fold_lt (l : List Char) (hl : ∀ c ∈ l, c.isDigit = true) :
    ∀ a : Nat,
      l.foldl (fun acc c => 10 * acc + digitVal c) a < (a + 1) * 10 ^ l.length := by
  induction l with
  | nil => intro a; simp
  | cons c cs ih =>
    intro a
    have hc := digitVal_lt_ten (hl c (by simp))
    have ihs := ih (fun x hx => hl x (by simp [hx])) (10 * a + digitVal c)
    simp only [List.foldl_cons, List.length_cons]
    calc cs.foldl (fun acc c => 10 * acc + digitVal c) (10 * a + digitVal c)
        < (10 * a + digitVal c + 1) * 10 ^ cs.length := ihs
      _ ≤ ((a + 1) * 10) * 10 ^ cs.length := by
          apply Nat.mul_le_mul_right
          omega
      _ = (a + 1) * 10 ^ (cs.length + 1) := by ring

theorem natOfDigits_lt {l : List Char} (hl : ∀ c ∈ l, c.isDigit = true) :
    natOfDigits l < 10 ^ l.length := by
  simpa [natOfDigits] using natOfDigits_fold_lt l hl 0

theorem yearEndP_eval {y : List Char} (hy : ∀ c ∈ y, c.isDigit)
    (hly : y.length = 2 ∨ y.length = 4) :
    yearEndP y = some (yearT (natOfDigits y)) := by
  unfold yearEndP
  have hall : y.all Char.isDigit = true := List.all_eq_true.mpr hy
  rcases hly with h | h <;> simp [hall, h]

theorem two_lens {a : List Char} (hla : a.length = 1 ∨ a.length = 2) :
    (∃ c, a = [c]) ∨ (∃ c c', a = [c, c']) := by
  rcases hla with h | h
  · exact Or.inl (List.length_eq_one.mp h)
  · match a, h with
    | [c, c'], _ => exact Or.inr ⟨c, c', rfl⟩

theorem dateRespM_eval {a b y : List Char}
    (ha : ∀ c ∈ a, c.isDigit = true) (hla : a.length = 1 ∨ a.length = 2)
    (hb : ∀ c ∈ b, c.isDigit = true) (hlb : b.length = 1 ∨ b.length = 2)
    (hy : ∀ c ∈ y, c.isDigit = true) (hly : y.length = 2 ∨ y.length = 4) :
    dateRespM ('d' :: 'a' :: 't' :: 'e' :: ':' :: ' ' :: (a ++ '/' :: (b ++ '/' :: y))) =
      some (dateT (natOfDigits a) (natOfDigits b) (yearT (natOfDigits y))) := by
  rcases two_lens hla with ⟨a0, rfl⟩ | ⟨a0, a1, rfl⟩ <;>
    rcases two_lens hlb with ⟨b0, rfl⟩ | ⟨b0, b1, rfl⟩
  · have ha0 := ha a0 (by simp); have hb0 := hb b0 (by simp)
    simp [dateRespM, litP, wsiP, p2dP, List.dropWhile, digit_not_wsi ha0,
      ha0, hb0, yearEndP_eval hy hly, natOfDigits, show isWsi ' ' = true from rfl]
  · have ha0 := ha a0 (by simp); have hb0 := hb b0 (by simp)
    have hb1 := hb b1 (by simp)
    simp [dateRespM, litP, wsiP, p2dP, List.dropWhile, digit_not_wsi ha0,
      ha0, hb0, hb1, yearEndP_eval hy hly, natOfDigits,
      show isWsi ' ' = true from rfl]
  · have ha0 := ha a0 (by simp); have hb0 := hb b0 (by simp)
    have ha1 := ha a1 (by simp)
    simp [dateRespM, litP, wsiP, p2dP, List.dropWhile, digit_not_wsi ha0,
      ha0, ha1, hb0, yearEndP_eval hy hly, natOfDigits,
      show isWsi ' ' = true from rfl]
  · have ha0 := ha a0 (by simp); have hb0 := hb b0 (by simp)
    have ha1 := ha a1 (by simp); have hb1 := hb b1 (by simp)
    simp [dateRespM, litP, wsiP, p2dP, List.dropWhile, digit_not_wsi ha0,
      ha0, ha1, hb0, hb1, yearEndP_eval hy hly, natOfDigits,
      show isWsi ' ' = true from rfl]

theorem nullRespM_d (l : List Char) : nullRespM ('d' :: l) = none := by
  simp [nullRespM, litP]

theorem valueRespM_d (l : List Char) : valueRespM ('d' :: l) = none := by
  simp [valueRespM, litP]

theorem textRespM_d (l : List Char) : textRespM ('d' :: l) = none := by
  simp [textRespM, litP]

theorem multivalueRespM_d (l : List Char) : multivalueRespM ('d' :: l) = none := by
  simp [multivalueRespM, litP]

/-- On a date-shaped cell the higher-priority rules fail and the date rule is
selected; the parse result is the transformed date rule. -/
theorem responseParse_date {a b y : List Char}
    (ha : ∀ c ∈ a, c.isDigit = true) (hla : a.length = 1 ∨ a.length = 2)
    (hb : ∀ c ∈ b, c.isDigit = true) (hlb : b.length = 1 ∨ b.length = 2)
    (hy : ∀ c ∈ y, c.isDigit = true) (hly : y.length = 2 ∨ y.length = 4) :
    responseParse ("date: ".data ++ (a ++ '/' :: (b ++ '/' :: y))) =
      dateT (natOfDigits a) (natOfDigits b) (yearT (natOfDigits y)) := by
  rw [show ("date: ".data ++ (a ++ '/' :: (b ++ '/' :: y))) =
    'd' :: 'a' :: 't' :: 'e' :: ':' :: ' ' :: (a ++ '/' :: (b ++ '/' :: y)) from by simp]
  simp [responseParse, responseMatchers, firstSome, nullRespM_d, valueRespM_d,
    textRespM_d, multivalueRespM_d, dateRespM_eval ha hla hb hlb hy hly]

/-- Shared helper: date cells parse to an ok record carrying the pivoted year,
the second field as month and the first field as day (when the date is
valid). -/
theorem responseParse_date_ok {a b y : List Char}
    (ha : ∀ c ∈ a, c.isDigit = true) (hla : a.length = 1 ∨ a.length = 2)
    (hb : ∀ c ∈ b, c.isDigit = true) (hlb : b.length = 1 ∨ b.length = 2)
    (hy : ∀ c ∈ y, c.isDigit = true) (hly : y.length = 2 ∨ y.length = 4)
    (hv : validDate (yearT (natOfDigits y)) (natOfDigits b) (natOfDigits a) = true) :
    responseParse ("date: ".data ++ (a ++ '/' :: (b ++ '/' :: y))) =
      .ok { type := some "date",
            date := some ⟨yearT (natOfDigits y), natOfDigits b, natOfDigits a⟩ } := by
  rw [responseParse_date ha hla hb hlb hy hly]
  simp [dateT, hv]

/-- Shared helper: any January-1st year built by the pivot is a valid
`datetime.date` year. -/
theorem validDate_jan1 {v : Nat} (hv : v < 10000) :
    validDate (yearT v) 1 1 = true := by
  unfold validDate daysInMonth yearT
  split_ifs with h1 h2 <;> simp <;> omega

/-! ## Claims C1, C6, C9 -/

/-- C1 (counterexample): on `"date: 1/2/21"` the parser binds the first field
to the day and the second to the month — it returns `date(2021, 2, 1)`, not
the `date(2021, 1, 2)` the claim's month-first reading predicts. -/
theorem claim_C1_counterexample :
    responseParse "date: 1/2/21".data =
        .ok { type := some "date", date := some ⟨2021, 2, 1⟩ } ∧
      responseParse "date: 1/2/21".data ≠
        .ok { type := some "date", date := some ⟨2021, 1, 2⟩ } := by
  constructor <;> decide

/-- C1 (amended): for every response cell `date: <a>/<b>/<y>` with 1–2 digit
fields and a 2- or 4-digit year, the input field order is day/month/year: the
parser returns a record of type `"date"` whose day is the first field `a` and
whose month is the second field `b` (provided they form a valid calendar
date), with the pivoted year. -/
theorem claim_C1_date_day_month {a b y : List Char}
    (ha : ∀ c ∈ a, c.isDigit = true) (hla : a.length = 1 ∨ a.length = 2)
    (hb : ∀ c ∈ b, c.isDigit = true) (hlb : b.length = 1 ∨ b.length = 2)
    (hy : ∀ c ∈ y, c.isDigit = true) (hly : y.length = 2 ∨ y.length = 4)
    (hv : validDate (yearT (natOfDigits y)) (natOfDigits b) (natOfDigits a) = true) :
    responseParse ("date: ".data ++ (a ++ '/' :: (b ++ '/' :: y))) =
      .ok { type := some "date",
            date := some ⟨yearT (natOfDigits y), natOfDigits b, natOfDigits a⟩ } :=
  responseParse_date_ok ha hla hb hlb hy hly hv

/-- C1 witness: `"date: 04/05/21"` parses to `date(2021, 5, 4)`. -/
theorem claim_C1_witness :
    responseParse "date: 04/05/21".data =
      .ok { type := some "date", date := some ⟨2021, 5, 4⟩ } := by
  have h := claim_C1_date_day_month (a := ['0','4']) (b := ['0','5'])
    (y := ['2','1']) (by decide) (by decide) (by decide) (by decide) (by decide)
    (by decide) (by decide)
  simpa using h

/-- C6 (counterexample): the four-digit year `0042` is not returned
unchanged — the pivot applies by integer value, yielding 2042. -/
theorem claim_C6_counterexample :
    responseParse "date: 1/2/0042".data =
        .ok { type := some "date", date := some ⟨2042, 2, 1⟩ } ∧
      (2042 : Nat) ≠ 42 := by
  constructor <;> decide

/-- C6 (amended): the year pivot is applied to the parsed integer value: any
two-digit year has value ≤ 99 and maps to `2000+y` (y < 69) or `1900+y`
(69 ≤ y ≤ 99); a four-digit year of value ≥ 100 is unchanged; a four-digit
year whose value is ≤ 99 (leading zeros) is pivoted the same way as a
two-digit year.  The parse of `date: 1/1/<y>` carries exactly that year. -/
theorem claim_C6_year_pivot {y : List Char}
    (hy : ∀ c ∈ y, c.isDigit = true) (hly : y.length = 2 ∨ y.length = 4) :
    (y.length = 2 → natOfDigits y ≤ 99) ∧
    (natOfDigits y ≤ 99 →
      yearT (natOfDigits y) =
        (if natOfDigits y < 69 then 2000 + natOfDigits y
         else 1900 + natOfDigits y)) ∧
    (100 ≤ natOfDigits y → yearT (natOfDigits y) = natOfDigits y) ∧
    responseParse ("date: 1/1/".data ++ y) =
      .ok { type := some "date",
            date := some ⟨yearT (natOfDigits y), 1, 1⟩ } := by
  have hlt : natOfDigits y < 10000 := by
    have := natOfDigits_lt hy
    rcases hly with h | h <;> rw [h] at this <;> omega
  refine ⟨?_, ?_, ?_, ?_⟩
  · intro h2
    have := natOfDigits_lt hy
    rw [h2] at this; omega
  · intro h99; unfold yearT; split_ifs <;> omega
  · intro h100; unfold yearT; split_ifs <;> omega
  · have h := responseParse_date_ok (a := ['1']) (b := ['1']) (y := y)
      (by decide) (by decide) (by decide) (by decide) hy hly
      (by simpa [natOfDigits, digitVal] using validDate_jan1 hlt)
    rw [show ("date: 1/1/".data ++ y) =
      ("date: ".data ++ (['1'] ++ '/' :: (['1'] ++ '/' :: y))) from by simp]
    simpa [natOfDigits, digitVal] using h

/-- C6 witness: the pivot boundary `69` gives 1969. -/
theorem claim_C6_witness :
    responseParse "date: 1/1/69".data =
      .ok { type := some "date", date := some ⟨1969, 1, 1⟩ } := by
  have h := (claim_C6_year_pivot (y := ['6','9']) (by decide) (by decide)).2.2.2
  simpa using h

/-- C9: the empty cell matches no grammar alternative — every rule, the
catch-all `raw_value` rule included, needs at least one character — so
`ResponseParser.parse` raises a parse error rather than returning a
`raw_value` record. -/
theorem claim_C9_empty_input :
    responseParse [] = .error "UnexpectedInput" ∧
      responseMatchers.all (fun m => (m []).isNone) = true :=
  ⟨rfl, rfl⟩

/-! ## Evaluation lemmas for the numeric-range options rules -/

theorem takeWhile_digits_stop {H : List Char} (hH : ∀ c ∈ H, c.isDigit = true)
    {c : Char} (hc : c.isDigit = false) (r : List Char) :
    (H ++ c :: r).takeWhile Char.isDigit = H ∧
      (H ++ c :: r).dropWhile Char.isDigit = c :: r := by
  induction H with
  | nil => simp [List.takeWhile, List.dropWhile, hc]
  | cons d ds ih =>
    have hd := hH d (by simp)
    obtain ⟨ih1, ih2⟩ := ih (fun x hx => hH x (by simp [hx]))
    simp [List.takeWhile, List.dropWhile, hd, ih1, ih2]

theorem takeWhile_digits_all {H : List Char} (hH : ∀ c ∈ H, c.isDigit = true) :
    H.takeWhile Char.isDigit = H ∧ H.dropWhile Char.isDigit = [] := by
  induction H with
  | nil => simp
  | cons d ds ih =>
    have hd := hH d (by simp)
    obtain ⟨ih1, ih2⟩ := ih (fun x hx => hH x (by simp [hx]))
    simp [List.takeWhile, List.dropWhile, hd, ih1, ih2]

theorem digitsP_comma {h0 : Char} {hs : List Char}
    (hH : ∀ c ∈ h0 :: hs, c.isDigit = true) (r : List Char) :
    digitsP (h0 :: (hs ++ ',' :: r)) = some (h0 :: hs, ',' :: r) := by
  obtain ⟨t1, t2⟩ := takeWhile_digits_stop hH (c := ',') (by decide) r
  unfold digitsP
  rw [show ((h0 :: hs) ++ ',' :: r) = h0 :: (hs ++ ',' :: r) from rfl] at t1 t2
  rw [t1, t2]

theorem digitsP_all {h0 : Char} {hs : List Char}
    (hH : ∀ c ∈ h0 :: hs, c.isDigit = true) :
    digitsP (h0 :: hs) = some (h0 :: hs, []) := by
  obtain ⟨t1, t2⟩ := takeWhile_digits_all hH
  unfold digitsP
  rw [t1, t2]

theorem maxMinRangeM_eval {H L : List Char}
    (hH : ∀ c ∈ H, c.isDigit = true) (hneH : H ≠ [])
    (hL : ∀ c ∈ L, c.isDigit = true) (hneL : L ≠ []) :
    maxMinRangeM ("Max: ".data ++ H ++ ", Min: ".data ++ L) =
      some (minMaxRangeT (natOfDigits L) (natOfDigits H)) := by
  match H, hneH with
  | h0 :: hs, _ =>
  match L, hneL with
  | l0 :: ls, _ =>
  have hh0 := hH h0 (by simp)
  have hl0 := hL l0 (by simp)
  have e1 : ("Max: ".data ++ (h0 :: hs) ++ ", Min: ".data ++ (l0 :: ls)) =
      'M' :: 'a' :: 'x' :: ':' :: ' ' ::
        (h0 :: (hs ++ ',' :: ' ' :: 'M' :: 'i' :: 'n' :: ':' :: ' ' :: (l0 :: ls))) := by
    simp
  rw [e1]
  unfold maxMinRangeM
  simp only [litP, wsiP, List.dropWhile,
    show isWsi ' ' = true from rfl, digit_not_wsi hh0, digit_not_wsi hl0,
    digitsP_comma hH, digitsP_all hL, if_true,
    show ('M' == 'M') = true from rfl, show ('a' == 'a') = true from rfl,
    show ('x' == 'x') = true from rfl, show (':' == ':') = true from rfl,
    show (',' == ',') = true from rfl, show ('i' == 'i') = true from rfl,
    show ('n' == 'n') = true from rfl, show ('M' == ' ') = false from rfl,
    Bool.false_eq_true, if_false]

theorem minMaxRangeM_eval {H L : List Char}
    (hH : ∀ c ∈ H, c.isDigit = true) (hneH : H ≠ [])
    (hL : ∀ c ∈ L, c.isDigit = true) (hneL : L ≠ []) :
    minMaxRangeM ("Min: ".data ++ L ++ ", Max: ".data ++ H) =
      some (minMaxRangeT (natOfDigits L) (natOfDigits H)) := by
  match H, hneH with
  | h0 :: hs, _ =>
  match L, hneL with
  | l0 :: ls, _ =>
  have hh0 := hH h0 (by simp)
  have hl0 := hL l0 (by simp)
  have e1 : ("Min: ".data ++ (l0 :: ls) ++ ", Max: ".data ++ (h0 :: hs)) =
      'M' :: 'i' :: 'n' :: ':' :: ' ' ::
        (l0 :: (ls ++ ',' :: ' ' :: 'M' :: 'a' :: 'x' :: ':' :: ' ' :: (h0 :: hs))) := by
    simp
  rw [e1]
  unfold minMaxRangeM
  simp only [litP, wsiP, List.dropWhile,
    show isWsi ' ' = true from rfl, digit_not_wsi hh0, digit_not_wsi hl0,
    digitsP_comma hL, digitsP_all hH, if_true,
    show ('M' == 'M') = true from rfl, show ('a' == 'a') = true from rfl,
    show ('x' == 'x') = true from rfl, show (':' == ':') = true from rfl,
    show (',' == ',') = true from rfl, show ('i' == 'i') = true from rfl,
    show ('n' == 'n') = true from rfl, show ('M' == ' ') = false from rfl,
    Bool.false_eq_true, if_false]

theorem maxMinRangeM_on_min (l : List Char) :
    maxMinRangeM ('M' :: 'i' :: 'n' :: ':' :: ' ' :: l) = none := by
  simp [maxMinRangeM, litP]

theorem optionsParse_maxmin {H L : List Char}
    (hH : ∀ c ∈ H, c.isDigit = true) (hneH : H ≠ [])
    (hL : ∀ c ∈ L, c.isDigit = true) (hneL : L ≠ []) :
    optionsParse ("Max: ".data ++ H ++ ", Min: ".data ++ L) =
      .ok (minMaxRangeT (natOfDigits L) (natOfDigits H)) := by
  simp only [optionsParse, optionsMatchers, optFirstSome,
    maxMinRangeM_eval hH hneH hL hneL]

theorem optionsParse_minmax {H L : List Char}
    (hH : ∀ c ∈ H, c.isDigit = true) (hneH : H ≠ [])
    (hL : ∀ c ∈ L, c.isDigit = true) (hneL : L ≠ []) :
    optionsParse ("Min: ".data ++ L ++ ", Max: ".data ++ H) =
      .ok (minMaxRangeT (natOfDigits L) (natOfDigits H)) := by
  have h2 := minMaxRangeM_eval hH hneH hL hneL
  have hfail : maxMinRangeM ("Min: ".data ++ L ++ ", Max: ".data ++ H) = none := by
    rw [show ("Min: ".data ++ L ++ ", Max: ".data ++ H) =
      'M' :: 'i' :: 'n' :: ':' :: ' ' :: (L ++ ", Max: ".data ++ H) from by simp]
    exact maxMinRangeM_on_min _
  simp only [optionsParse, optionsMatchers, optFirstSome, hfail, h2]

/-- The synthesized range list, spelled out: `hi-lo+1` entries, the `n`-th
being `lo+n` in every field. -/
theorem minMaxRangeT_asc {lo hi : Nat} (hle : lo ≤ hi) :
    minMaxRangeT lo hi =
      (List.range (hi - lo + 1)).map fun n =>
        { name := .int (Int.ofNat (lo + n)), value := Int.ofNat (lo + n),
          score := some (Int.ofNat (lo + n)) } := by
  unfold minMaxRangeT pyRange
  rw [show hi + 1 - lo = hi - lo + 1 from by omega]
  simp [List.map_map, Function.comp]

/-- An inverted range is empty: `range(min, max+1)` with `min > max`. -/
theorem minMaxRangeT_empty {lo hi : Nat} (hgt : hi < lo) :
    minMaxRangeT lo hi = [] := by
  unfold minMaxRangeT pyRange
  rw [show hi + 1 - lo = 0 from by omega]
  simp

/-! ## Claims C7 and C10 -/

/-- C7: a numeric-range options cell — in either `Max:`-first or `Min:`-first
order — parses to `hi-lo+1` OptionRecords with `name = value = score = n`
for `n` running ascending from `lo` to `hi` (given `lo ≤ hi`). -/
theorem claim_C7_numeric_range {H L : List Char}
    (hH : ∀ c ∈ H, c.isDigit = true) (hneH : H ≠ [])
    (hL : ∀ c ∈ L, c.isDigit = true) (hneL : L ≠ [])
    (hle : natOfDigits L ≤ natOfDigits H) :
    optionsParse ("Max: ".data ++ H ++ ", Min: ".data ++ L) =
        .ok ((List.range (natOfDigits H - natOfDigits L + 1)).map fun n =>
          { name := .int (Int.ofNat (natOfDigits L + n)),
            value := Int.ofNat (natOfDigits L + n),
            score := some (Int.ofNat (natOfDigits L + n)) }) ∧
      optionsParse ("Min: ".data ++ L ++ ", Max: ".data ++ H) =
        .ok ((List.range (natOfDigits H - natOfDigits L + 1)).map fun n =>
          { name := .int (Int.ofNat (natOfDigits L + n)),
            value := Int.ofNat (natOfDigits L + n),
            score := some (Int.ofNat (natOfDigits L + n)) }) := by
  rw [optionsParse_maxmin hH hneH hL hneL, optionsParse_minmax hH hneH hL hneL,
    minMaxRangeT_asc hle]
  exact ⟨rfl, rfl⟩

/-- C7 witness: `"Max: 2, Min: 0"` and `"Min: 0, Max: 2"` both give the
ascending 0,1,2 options. -/
theorem claim_C7_witness :
    optionsParse "Max: 2, Min: 0".data =
        .ok [⟨.int 0, 0, some 0⟩, ⟨.int 1, 1, some 1⟩, ⟨.int 2, 2, some 2⟩] ∧
      optionsParse "Min: 0, Max: 2".data =
        .ok [⟨.int 0, 0, some 0⟩, ⟨.int 1, 1, some 1⟩, ⟨.int 2, 2, some 2⟩] := by
  have h := claim_C7_numeric_range (H := ['2']) (L := ['0'])
    (by decide) (by decide) (by decide) (by decide) (by decide)
  constructor
  · rw [show "Max: 2, Min: 0".data =
      "Max: ".data ++ ['2'] ++ ", Min: ".data ++ ['0'] from by decide]
    exact h.1.trans (by decide)
  · rw [show "Min: 0, Max: 2".data =
      "Min: ".data ++ ['0'] ++ ", Max: ".data ++ ['2'] from by decide]
    exact h.2.trans (by decide)

/-- C10: a numeric-range options cell whose declared Min exceeds its declared
Max parses to the empty option list — no error, no descending range. -/
theorem claim_C10_inverted_range {H L : List Char}
    (hH : ∀ c ∈ H, c.isDigit = true) (hneH : H ≠ [])
    (hL : ∀ c ∈ L, c.isDigit = true) (hneL : L ≠ [])
    (hgt : natOfDigits H < natOfDigits L) :
    optionsParse ("Max: ".data ++ H ++ ", Min: ".data ++ L) = .ok [] ∧
      optionsParse ("Min: ".data ++ L ++ ", Max: ".data ++ H) = .ok [] := by
  rw [optionsParse_maxmin hH hneH hL hneL, optionsParse_minmax hH hneH hL hneL,
    minMaxRangeT_empty hgt]
  exact ⟨rfl, rfl⟩

/-- C10 witness: `"Max: 0, Min: 5"` parses to the empty list. -/
theorem claim_C10_witness :
    optionsParse "Max: 0, Min: 5".data = .ok [] := by
  have h := claim_C10_inverted_range (H := ['0']) (L := ['5'])
    (by decide) (by decide) (by decide) (by decide) (by decide)
  rw [show "Max: 0, Min: 5".data =
    "Max: ".data ++ ['0'] ++ ", Min: ".data ++ ['5'] from by decide]
  exact h.1

/-! ## Claim C2: expand_responses row multiplication -/

theorem flatMap_single {β γ : Type} (l : List β) (f : β → γ) :
    (l.flatMap fun x => [f x]) = l.map f := by
  induction l with
  | nil => rfl
  | cons x xs ih => simp [ih]

/-- The output row produced for one exploded value element when the matrix
branch is empty. -/
def valueRow {α : Type} (r : ReportRow α) (vv : Option Int × Option Int) :
    LongRow α :=
  { other := r.other
    item := r.item
    response_status := r.response.status
    response_raw_score := r.response.raw_score
    response_value_type := r.response.value.type
    response_value_raw_value := r.response.value.raw_value
    response_value_null_value := r.response.value.null_value
    response_value_text := r.response.value.text
    response_value_file := r.response.value.file
    response_value_date := r.response.value.date
    response_value_time := r.response.value.time
    response_value_time_range := r.response.value.time_range
    response_value_value := vv.1
    response_value_value_index := vv.2
    response_value_geo_latitude := r.response.value.geo.map GeoRec.latitude
    response_value_geo_longitude := r.response.value.geo.map GeoRec.longitude
    response_value_matrix_row := none
    response_value_matrix_value := none
    response_value_matrix_value_index := none }

/-- With a null matrix, per-row expansion is the value explode alone. -/
theorem expandRespRow_nomatrix {α : Type} (r : ReportRow α)
    (hmat : r.response.value.matrix = none) :
    expandRespRow r = (explodePair r.response.value.value).map (valueRow r) := by
  unfold expandRespRow
  rw [hmat]
  simp only [explodeOpt, List.flatMap_cons, List.flatMap_nil, List.append_nil,
    Option.map_none']
  rw [show explodePair none = [(none, none)] from rfl]
  simp [flatMap_single, valueRow]

/-- C2: `expand_responses` acts row-by-row; a row whose parsed record
populates neither `value` nor `matrix` contributes exactly one output row; a
row whose (parser-produced, hence non-empty) value list has N elements
contributes exactly N rows, carrying value-index 0..N-1 in original list
order, the values in order, and every other scalar column copied unchanged
across those rows. -/
theorem claim_C2_expand_responses {α : Type} (df : List (ReportRow α))
    (r : ReportRow α) :
    (expandResponses df = df.flatMap fun x => expandResponses [x]) ∧
    (r.response.value.value = none → r.response.value.matrix = none →
      (expandResponses [r]).length = 1) ∧
    (∀ vs, r.response.value.value = some vs → vs ≠ [] →
      r.response.value.matrix = none →
      (expandResponses [r]).length = vs.length ∧
      (expandResponses [r]).map (fun o => o.response_value_value) = vs.map some ∧
      (expandResponses [r]).map (fun o => o.response_value_value_index) =
        (List.range vs.length).map (fun i => some (Int.ofNat i)) ∧
      ∀ o ∈ expandResponses [r],
        o.other = r.other ∧ o.item = r.item ∧
        o.response_status = r.response.status ∧
        o.response_raw_score = r.response.raw_score ∧
        o.response_value_type = r.response.value.type ∧
        o.response_value_raw_value = r.response.value.raw_value ∧
        o.response_value_null_value = r.response.value.null_value ∧
        o.response_value_text = r.response.value.text ∧
        o.response_value_file = r.response.value.file ∧
        o.response_value_date = r.response.value.date ∧
        o.response_value_time = r.response.value.time ∧
        o.response_value_time_range = r.response.value.time_range ∧
        o.response_value_geo_latitude = r.response.value.geo.map GeoRec.latitude ∧
        o.response_value_geo_longitude = r.response.value.geo.map GeoRec.longitude ∧
        o.response_value_matrix_row = none ∧
        o.response_value_matrix_value = none ∧
        o.response_value_matrix_value_index = none) := by
  have hone : expandResponses [r] = expandRespRow r := by
    simp [expandResponses]
  refine ⟨by simp [expandResponses], ?_, ?_⟩
  · intro h1 h2
    rw [hone, expandRespRow_nomatrix r h2, h1]
    rfl
  · intro vs hval hne hmat
    match vs, hne with
    | v :: vt, _ =>
      rw [hone, expandRespRow_nomatrix r hmat, hval]
      rw [show explodePair (some (v :: vt)) =
        ((v :: vt).enum).map (fun p => ((some p.2 : Option Int),
          (some (Int.ofNat p.1) : Option Int))) from rfl]
      refine ⟨by simp [List.enum_length], ?_, ?_, ?_⟩
      · rw [List.map_map, List.map_map]
        have hc : ((((fun (o : LongRow α) => o.response_value_value) ∘
            valueRow r) ∘ fun (p : Nat × Int) => ((some p.2 : Option Int),
              (some (Int.ofNat p.1) : Option Int)))) = (some ∘ Prod.snd) := rfl
        rw [hc, ← List.map_map, List.enum_map_snd]
      · rw [List.map_map, List.map_map]
        have hc : ((((fun (o : LongRow α) => o.response_value_value_index) ∘
            valueRow r) ∘ fun (p : Nat × Int) => ((some p.2 : Option Int),
              (some (Int.ofNat p.1) : Option Int)))) =
            ((fun i => some (Int.ofNat i)) ∘ Prod.fst) := rfl
        rw [hc, ← List.map_map, List.enum_map_fst]
      · intro o ho
        rw [List.map_map, List.mem_map] at ho
        obtain ⟨p, hp, rfl⟩ := ho
        simp [valueRow, Function.comp]

/-- Sample processed row: a `value: [1, 2, 3]` response. -/
def sampleValueRow : ReportRow Nat :=
  { other := 0
    item := ⟨none, none, none, none, none, none⟩
    response := ⟨some "completed", none,
      { type := some "value", value := some [1, 2, 3] }⟩ }

/-- C2 witness: the three-value row explodes into 3 rows with indices
0, 1, 2 and values 1, 2, 3. -/
theorem claim_C2_witness :
    (expandResponses [sampleValueRow]).length = 3 ∧
      (expandResponses [sampleValueRow]).map (fun o => o.response_value_value) =
        [some 1, some 2, some 3] ∧
      (expandResponses [sampleValueRow]).map
          (fun o => o.response_value_value_index) =
        [some 0, some 1, some 2] := by
  have h := (claim_C2_expand_responses [] sampleValueRow).2.2
    [1, 2, 3] rfl (by decide) rfl
  refine ⟨h.1.trans (by decide), h.2.1.trans (by decide), h.2.2.1.trans (by decide)⟩

/-! ## Claim C4: expand_options -/

/-- A sample option record and a processed row carrying it. -/
def sampleOptRec : OptionRec := ⟨some "No", some 0, some 0⟩

/-- Sample processed row with a one-option item (response irrelevant). -/
def sampleOptItemRow : ReportRow Nat :=
  { other := 0
    item := ⟨some "i1", none, none, none, none, some [sampleOptRec]⟩
    response := ⟨none, none, {}⟩ }

/-- C4 (counterexample): `expand_options` does not deduplicate — two
identical source rows for the same item/option yield the same exploded row
twice, and the option record stays nested in the exploded column. -/
theorem claim_C4_counterexample :
    expandOptions (fun r => r.item) [sampleOptItemRow, sampleOptItemRow] =
        [(sampleOptItemRow, some sampleOptRec),
          (sampleOptItemRow, some sampleOptRec)] ∧
      (expandOptions (fun r => r.item)
          [sampleOptItemRow, sampleOptItemRow]).count
        (sampleOptItemRow, some sampleOptRec) = 2 := by
  constructor <;> decide

/-- C4 (amended): `expand_options` only attaches the item's option list as a
column and explodes it — one output row per OptionRecord, in order, keeping
every other column (a null or empty option list yields one row with a null
option); it performs no unnesting and no deduplication (those happen in
`item_response_options`). -/
theorem claim_C4_expand_options {ρ : Type} (getItem : ρ → ItemStruct)
    (df : List ρ) (r : ρ) :
    (expandOptions getItem df = df.flatMap fun x => expandOptions getItem [x]) ∧
    ((getItem r).response_options = none →
      expandOptions getItem [r] = [(r, none)]) ∧
    ((getItem r).response_options = some [] →
      expandOptions getItem [r] = [(r, none)]) ∧
    (∀ os, (getItem r).response_options = some os → os ≠ [] →
      expandOptions getItem [r] = os.map fun o => (r, some o)) := by
  refine ⟨by simp [expandOptions], ?_, ?_, ?_⟩
  · intro h; simp [expandOptions, explodeOpt, h]
  · intro h; simp [expandOptions, explodeOpt, h]
  · intro os h hne
    match os, hne with
    | o :: ot, _ => simp [expandOptions, explodeOpt, h]

/-- C4 witness: one row with one option explodes to exactly that pair. -/
theorem claim_C4_witness :
    expandOptions (fun r => r.item) [sampleOptItemRow] =
      [(sampleOptItemRow, some sampleOptRec)] := by
  have h := (claim_C4_expand_options (fun r => r.item) [] sampleOptItemRow).2.2.2
    [sampleOptRec] rfl (by decide)
  exact h.trans (by decide)

/-! ## Claim C8: the scored output -/

/-- A processed row whose response value 5 matches no option value. -/
def sampleScoredRow : ReportRow Nat :=
  { other := 0
    item := ⟨some "i1", none, none, none, none, some [⟨some "a", some 1, some 2⟩]⟩
    response := ⟨none, none, { type := some "value", value := some [5] }⟩ }

/-- C8: producing the "scored" output raises `ColumnNotFoundError` for every
input whose remaining report columns do not happen to carry the two
referenced names: the filter expression references `item_option_value` and
`item_response_value`, but the long report's exploded option column is
`item_response_options` and its response value column is
`response_value_value` — so no left-join (and no filter) ever happens, and
no row is kept or dropped. -/
theorem claim_C8_column_not_found {α : Type} (other : List String)
    (df : List (ReportRow α))
    (h1 : "item_option_value" ∉ other) (h2 : "item_response_value" ∉ other) :
    scoredFormat other df =
        (.error "ColumnNotFoundError: item_option_value" :
          Except String (List (LongRow α × Option OptionRec))) ∧
      "item_option_value" ∉ longReportCols other ∧
      "item_response_value" ∉ longReportCols other ∧
      "item_response_options" ∈ longReportCols other ∧
      "response_value_value" ∈ longReportCols other := by
  have hno1 : "item_option_value" ∉ longReportCols other := by
    unfold longReportCols
    rw [List.mem_append]
    rintro (h | h)
    · exact h1 h
    · revert h; decide
  have hno2 : "item_response_value" ∉ longReportCols other := by
    unfold longReportCols
    rw [List.mem_append]
    rintro (h | h)
    · exact h2 h
    · revert h; decide
  have hc1 : (longReportCols other).contains "item_option_value" = false := by
    rw [List.contains_eq_any_beq]
    rw [List.any_eq_false]
    intro x hx
    simp only [beq_iff_eq]
    rintro rfl
    exact hno1 hx
  refine ⟨?_, hno1, hno2, ?_, ?_⟩
  · unfold scoredFormat scoredFilterCols
    rw [List.find?_cons_of_pos _ (by rw [hc1]; rfl)]
    rfl
  · unfold longReportCols
    exact List.mem_append_right _ (by decide)
  · unfold longReportCols
    exact List.mem_append_right _ (by decide)

/-- C8 witness: at the actual report schema and a concrete one-row table the
scored output is the `ColumnNotFoundError`. -/
theorem claim_C8_witness :
    scoredFormat (α := Nat) reportOtherCols [sampleScoredRow] =
      .error "ColumnNotFoundError: item_option_value" :=
  (claim_C8_column_not_found reportOtherCols [sampleScoredRow]
    (by decide) (by decide)).1

/-! ## Claim C5: the default pipeline loop -/

/-- C5 (code defect evidence): the registration hook does exclude
negative-priority processors, and the loop does sort ascending by priority —
but `proc.ENABLE` is referenced and never defined on any processor class, so
the very first loop iteration raises `AttributeError` for every input table:
no processor ever runs. -/
theorem claim_C5_enable_attribute_error :
    (∀ (τ : Type) (apply : ProcClass → τ → τ) (t : τ),
      loadWebExport apply t =
        .error
          "AttributeError: type object DropLegacyUserId has no attribute ENABLE") ∧
      (∀ (p : ProcClass) (ps : List ProcClass), p.PRIORITY < 0 →
        initSubclass ps p = ps) ∧
      (sortByPriority registeredProcessors).map ProcClass.PRIORITY =
        [0, 0, 5, 8, 10, 10, 10, 10, 10, 10] := by
  refine ⟨?_, ?_, by decide⟩
  · intro τ apply t
    unfold loadWebExport
    rw [show sortByPriority registeredProcessors =
      [⟨"DropLegacyUserId", 0, none⟩, ⟨"ColumnCasting", 0, none⟩,
        ⟨"Subscale", 5, none⟩, ⟨"DateTime", 8, none⟩,
        ⟨"ResponseStruct", 10, none⟩, ⟨"UserStruct", 10, none⟩,
        ⟨"ItemStruct", 10, none⟩, ⟨"ActivityFlowStruct", 10, none⟩,
        ⟨"ActivityStruct", 10, none⟩,
        ⟨"ActivityScheduleStruct", 10, none⟩] from by decide]
    rfl
  · intro p ps h
    unfold initSubclass
    rw [if_neg (by omega)]

/-- C5 witness: the error hits at a concrete table, and a concrete
negative-priority processor is never registered. -/
theorem claim_C5_witness :
    loadWebExport (τ := Nat) (fun _ t => t) 7 =
        .error
          "AttributeError: type object DropLegacyUserId has no attribute ENABLE" ∧
      initSubclass [] ⟨"Disabled", -1, none⟩ = [] := by
  exact ⟨claim_C5_enable_attribute_error.1 Nat (fun _ t => t) 7,
    claim_C5_enable_attribute_error.2.1 ⟨"Disabled", -1, none⟩ [] (by decide)⟩

/-! ## Claim C3: processor additivity -/

theorem withCols_height (t : PDF) (new : List String) :
    (withCols t new).height = t.height := rfl

theorem mem_withCols {t : PDF} {c : String} (h : c ∈ t.cols)
    (new : List String) : c ∈ (withCols t new).cols :=
  List.mem_append_left _ h

theorem mem_dropCols {t : PDF} {c : String} (h : c ∈ t.cols)
    {del : List String} (hnot : del.contains c = false) :
    c ∈ (dropCols t del).cols :=
  List.mem_filter.mpr ⟨h, by simp only [hnot, Bool.not_false]⟩

theorem mem_dropWhere {t : PDF} {c : String} (h : c ∈ t.cols)
    {p : String → Bool} (hnot : p c = false) :
    c ∈ (dropWhere t p).cols :=
  List.mem_filter.mpr ⟨h, by simp only [hnot, Bool.not_false]⟩

/-- C3 (counterexample): `ResponseStructProcessor` is a standard
(non-subscale) processor, yet it removes the pre-existing `item_response`
column from the schema. -/
theorem claim_C3_counterexample :
    "item_response" ∈
        (PDF.mk ["item_response_status", "item_response", "rawScore"] 3).cols ∧
      "item_response" ∉
        (responseStructRun
          ⟨["item_response_status", "item_response", "rawScore"], 3⟩).cols ∧
      (responseStructRun, fun c => responseStructDrops.contains c) ∈
        standardProcessors := by
  refine ⟨by decide, by decide, ?_⟩
  exact List.mem_cons_of_mem _ (List.mem_cons_of_mem _
    (List.mem_cons_of_mem _ (List.mem_cons_self _ _)))

/-- C3 (amended): every standard (non-subscale) processor preserves the row
count, and the output schema retains every pre-existing column except the
processor's consumed source columns (the flat columns folded into the new
struct column, or the deprecated `legacy_user_id`; `ColumnCasting` and
`DateTime` consume none). -/
theorem claim_C3_additive_modulo_drops :
    ∀ p ∈ standardProcessors, ∀ t : PDF, ∀ c : String,
      (p.1 t).height = t.height ∧
      (c ∈ t.cols → p.2 c = false → c ∈ (p.1 t).cols) := by
  intro p hp t c
  simp only [standardProcessors, List.mem_cons, List.not_mem_nil, or_false] at hp
  rcases hp with rfl | rfl | rfl | rfl | rfl | rfl | rfl | rfl | rfl <;> dsimp only
  · constructor
    · unfold dropLegacyRun dropCols
      split <;> rfl
    · intro hc hpred
      unfold dropLegacyRun
      split
      · refine mem_dropCols hc ?_
        have hne : (c == "legacy_user_id") = false := by
          simp only [beq_eq_false_iff_ne, ne_eq]
          simpa using hpred
        simp [List.contains, List.elem, hne]
      · exact hc
  · exact ⟨rfl, fun hc _ => mem_withCols hc _⟩
  · exact ⟨rfl, fun hc _ => mem_withCols hc _⟩
  · exact ⟨rfl, fun hc hpred =>
      mem_dropCols (mem_withCols hc _) (by simpa using hpred)⟩
  · exact ⟨rfl, fun hc hpred =>
      mem_dropWhere (mem_withCols hc _) (by simpa using hpred)⟩
  · exact ⟨rfl, fun hc hpred =>
      mem_dropCols (mem_withCols hc _) (by simpa using hpred)⟩
  · exact ⟨rfl, fun hc hpred =>
      mem_dropCols (mem_withCols hc _) (by simpa using hpred)⟩
  · exact ⟨rfl, fun hc hpred =>
      mem_dropCols (mem_withCols hc _) (by simpa using hpred)⟩
  · exact ⟨rfl, fun hc hpred =>
      mem_dropCols (mem_withCols hc _) (by simpa using hpred)⟩

/-- C3 witness: `UserStructProcessor` on a concrete schema keeps height and
retains the unconsumed `applet_version` column. -/
theorem claim_C3_witness :
    (userStructRun ⟨["applet_version", "userId", "target_nickname"], 5⟩).height =
        5 ∧
      "applet_version" ∈
        (userStructRun ⟨["applet_version", "userId", "target_nickname"], 5⟩).cols := by
  have h := claim_C3_additive_modulo_drops (userStructRun, userStructDrop)
    (List.mem_cons_of_mem _ (List.mem_cons_of_mem _ (List.mem_cons_of_mem _
      (List.mem_cons_of_mem _ (List.mem_cons_self _ _)))))
    ⟨["applet_version", "userId", "target_nickname"], 5⟩ "applet_version"
  exact ⟨h.1, h.2 (by decide) (by decide)⟩

end MDE
